import Mathlib

set_option maxRecDepth 100000

/-!
Verification of the TrustLink block core (`chain/internal/core/block.go`).

The Go source defines a payload record (`SupplierData`), a block entity
(`Block`), two constructors (`NewBlock`, `NewGenesisBlock`) and a fingerprint
derivation (`CalculateHash`) built from `encoding/json`, `crypto/sha256`,
`encoding/hex` and `fmt.Sprintf`.  This file shallowly embeds that code:
bytes are `Nat` values below 256, machine words are `Nat` reduced modulo
`2 ^ 32`, the wall clock read by the constructors is passed in as an explicit
argument, and the Go standard-library functions the source calls (SHA-256,
lowercase hex encoding, JSON marshalling with Go's escaping rules) are
modelled executably from their documented behaviour.
-/

namespace TrustLink

/-! ## 32-bit words as `Nat` reduced modulo `2 ^ 32` -/

/-- Truncate to a 32-bit word, as Go's `uint32` arithmetic does. -/
def w32 (n : Nat) : Nat := n % 4294967296

/-- Right rotation of a 32-bit word by `k` places. -/
def rotr32 (k x : Nat) : Nat := w32 ((x >>> k) ||| (x <<< (32 - k)))

/-! ## SHA-256 (FIPS 180-4), over lists of bytes -/

/-- The eight working variables of the SHA-256 compression function. -/
structure Sha256State where
  a : Nat
  b : Nat
  c : Nat
  d : Nat
  e : Nat
  f : Nat
  g : Nat
  h : Nat

/-- The SHA-256 initial hash value `H(0)` (FIPS 180-4 §5.3.3, here in
decimal). -/
def sha256Init : Sha256State :=
  ⟨1779033703, 3144134277, 1013904242, 2773480762,
   1359893119, 2600822924, 528734635, 1541459225⟩

/-- The 64 SHA-256 round constants `K` (FIPS 180-4 §4.2.2, here in
decimal). -/
def sha256K : List Nat :=
  [1116352408, 1899447441, 3049323471, 3921009573, 961987163, 1508970993,
   2453635748, 2870763221, 3624381080, 310598401, 607225278, 1426881987,
   1925078388, 2162078206, 2614888103, 3248222580, 3835390401, 4022224774,
   264347078, 604807628, 770255983, 1249150122, 1555081692, 1996064986,
   2554220882, 2821834349, 2952996808, 3210313671, 3336571891, 3584528711,
   113926993, 338241895, 666307205, 773529912, 1294757372, 1396182291,
   1695183700, 1986661051, 2177026350, 2456956037, 2730485921, 2820302411,
   3259730800, 3345764771, 3516065817, 3600352804, 4094571909, 275423344,
   430227734, 506948616, 659060556, 883997877, 958139571, 1322822218,
   1537002063, 1747873779, 1955562222, 2024104815, 2227730452, 2361852424,
   2428436474, 2756734187, 3204031479, 3329325298]

/-- Group a chunk's bytes into big-endian 32-bit words. -/
def bytesToWords : List Nat → List Nat
  | b0 :: b1 :: b2 :: b3 :: rest =>
      (b0 * 16777216 + b1 * 65536 + b2 * 256 + b3) :: bytesToWords rest
  | _ => []

/-- Extend the 16 chunk words to the 64-entry message schedule `W`. -/
def extendWords (ws : Array Nat) : Array Nat :=
  (List.range 48).foldl (fun arr i =>
    let w15 := arr.getD (i + 1) 0
    let w2 := arr.getD (i + 14) 0
    let w16 := arr.getD i 0
    let w7 := arr.getD (i + 9) 0
    let s0 := (rotr32 7 w15) ^^^ (rotr32 18 w15) ^^^ (w15 >>> 3)
    let s1 := (rotr32 17 w2) ^^^ (rotr32 19 w2) ^^^ (w2 >>> 10)
    arr.push (w32 (w16 + s0 + w7 + s1))) ws

/-- One round of the SHA-256 compression function; `kw` pairs the round
constant with the schedule word. -/
def sha256Round (st : Sha256State) (kw : Nat × Nat) : Sha256State :=
  let S1 := (rotr32 6 st.e) ^^^ (rotr32 11 st.e) ^^^ (rotr32 25 st.e)
  let ch := (st.e &&& st.f) ^^^ ((4294967295 ^^^ st.e) &&& st.g)
  let temp1 := w32 (st.h + S1 + ch + kw.1 + kw.2)
  let S0 := (rotr32 2 st.a) ^^^ (rotr32 13 st.a) ^^^ (rotr32 22 st.a)
  let maj := (st.a &&& st.b) ^^^ (st.a &&& st.c) ^^^ (st.b &&& st.c)
  let temp2 := w32 (S0 + maj)
  ⟨w32 (temp1 + temp2), st.a, st.b, st.c, w32 (st.d + temp1), st.e, st.f, st.g⟩

/-- Process one 64-byte chunk: run the 64 rounds and add the result into the
incoming hash state. -/
def processChunk (st : Sha256State) (chunk : List Nat) : Sha256State :=
  let ws := extendWords (Array.mk (bytesToWords chunk))
  let r := (sha256K.zip ws.toList).foldl sha256Round st
  ⟨w32 (st.a + r.a), w32 (st.b + r.b), w32 (st.c + r.c), w32 (st.d + r.d),
   w32 (st.e + r.e), w32 (st.f + r.f), w32 (st.g + r.g), w32 (st.h + r.h)⟩

/-- The `k` big-endian bytes of `n`. -/
def natToBytesBE : Nat → Nat → List Nat
  | 0, _ => []
  | k + 1, n => natToBytesBE k (n / 256) ++ [n % 256]

/-- SHA-256 padding: a `0x80` byte, zeros to 56 mod 64, then the bit length
as 8 big-endian bytes. -/
def padMessage (msg : List Nat) : List Nat :=
  let padLen := (64 + 55 - msg.length % 64) % 64
  msg ++ 0x80 :: List.replicate padLen 0 ++ natToBytesBE 8 (msg.length * 8)

/-- Split a byte list into 64-byte chunks, structurally on a fuel bound so
the definition reduces inside the kernel; each step consumes at least one
byte, so `fuel = l.length` always suffices. -/
def toChunksAux : Nat → List Nat → List (List Nat)
  | 0, _ => []
  | _ + 1, [] => []
  | fuel + 1, l => l.take 64 :: toChunksAux fuel (l.drop 64)

/-- Split a byte list into 64-byte chunks. -/
def toChunks (l : List Nat) : List (List Nat) :=
  toChunksAux l.length l

/-- The four big-endian bytes of a 32-bit word. -/
def wordToBytes (w : Nat) : List Nat :=
  [w / 16777216 % 256, w / 65536 % 256, w / 256 % 256, w % 256]

/-- SHA-256 of a byte list, as the 32 digest bytes. -/
def sha256 (msg : List Nat) : List Nat :=
  let fin := (toChunks (padMessage msg)).foldl processChunk sha256Init
  wordToBytes fin.a ++ wordToBytes fin.b ++ wordToBytes fin.c ++ wordToBytes fin.d ++
  wordToBytes fin.e ++ wordToBytes fin.f ++ wordToBytes fin.g ++ wordToBytes fin.h

/-! ## Lowercase hex encoding (Go `encoding/hex.EncodeToString`) -/

/-- The lowercase hexadecimal digit for a value below 16. -/
def hexDigitChar (n : Nat) : Char :=
  if n < 10 then Char.ofNat (48 + n) else Char.ofNat (87 + n)

/-- Two lowercase hex characters per byte, high nibble first. -/
def hexChars (bytes : List Nat) : List Char :=
  bytes.flatMap fun b => [hexDigitChar (b / 16), hexDigitChar (b % 16)]

/-- Model of Go's `hex.EncodeToString` on a byte slice. -/
def hexEncode (bytes : List Nat) : String := String.mk (hexChars bytes)

/-! ## UTF-8 encoding of strings -/

/-- The UTF-8 bytes of one code point. -/
def utf8EncodeChar (c : Char) : List Nat :=
  let n := c.toNat
  if n < 0x80 then [n]
  else if n < 0x800 then [0xC0 ||| (n >>> 6), 0x80 ||| (n &&& 0x3F)]
  else if n < 0x10000 then
    [0xE0 ||| (n >>> 12), 0x80 ||| ((n >>> 6) &&& 0x3F), 0x80 ||| (n &&& 0x3F)]
  else
    [0xF0 ||| (n >>> 18), 0x80 ||| ((n >>> 12) &&& 0x3F),
     0x80 ||| ((n >>> 6) &&& 0x3F), 0x80 ||| (n &&& 0x3F)]

/-- The UTF-8 bytes of a string, as Go's `[]byte(record)` conversion yields. -/
def strToBytes (s : String) : List Nat := s.data.flatMap utf8EncodeChar

/-! ## Go `float64` values, as `encoding/json` sees them

The source stores `RatingChange` as a Go `float64`.  `encoding/json` renders a
finite `float64` as its shortest decimal form that round-trips (an injective
rendering, so distinct finite values have distinct renderings), and returns an
`UnsupportedValueError` for `NaN` and the infinities.  The model identifies a
finite value by that decimal rendering and keeps the non-finite values as
explicit constructors; this is exactly the information the hash pipeline
consumes. -/
inductive GoFloat where
  | finite (render : String)
  | nan
  | inf (neg : Bool)
deriving DecidableEq, Repr

/-- Go's JSON encoding of a `float64`: the decimal rendering for a finite
value, an error (`none`) for `NaN` or an infinity. -/
def encodeGoFloat : GoFloat → Option String
  | .finite r => some r
  | .nan => none
  | .inf _ => none

/-! ## Go `encoding/json` string escaping (HTML escaping on, as `Marshal` uses) -/

/-- The characters Go's JSON encoder emits for one character of a string:
quote, backslash, newline, carriage return and tab get two-character escapes,
other control characters get `\u00XX`, and `<`, `>`, `&`, U+2028, U+2029 get
`\uXXXX` escapes because `Marshal` escapes HTML; everything else passes
through. -/
def goJsonEscapeChar (c : Char) : List Char :=
  if c = '"' then ['\\', '"']
  else if c = '\\' then ['\\', '\\']
  else if c = '\n' then ['\\', 'n']
  else if c = '\r' then ['\\', 'r']
  else if c = '\t' then ['\\', 't']
  else if c.toNat < 0x20 then
    ['\\', 'u', '0', '0', hexDigitChar (c.toNat / 16), hexDigitChar (c.toNat % 16)]
  else if c = '<' then ['\\', 'u', '0', '0', '3', 'c']
  else if c = '>' then ['\\', 'u', '0', '0', '3', 'e']
  else if c = '&' then ['\\', 'u', '0', '0', '2', '6']
  else if c.toNat = 0x2028 then ['\\', 'u', '2', '0', '2', '8']
  else if c.toNat = 0x2029 then ['\\', 'u', '2', '0', '2', '9']
  else [c]

/-- A Go JSON string literal: the escaped text between double quotes. -/
def goQuote (s : String) : String :=
  "\"" ++ String.mk (s.data.flatMap goJsonEscapeChar) ++ "\""

/-! ## The data model of `block.go` -/

/-- `SupplierData` — the payload record, with the field names and order of the
Go struct. -/
structure SupplierData where
  INN : String
  CompanyName : String
  Action : String
  RatingChange : GoFloat
  Details : String
deriving DecidableEq, Repr

/-- The members of a JSON object, rendered as `"key":value` pairs joined by
commas. -/
def jsonMembers : List (String × String) → String
  | [] => ""
  | [kv] => goQuote kv.1 ++ ":" ++ kv.2
  | kv :: rest => goQuote kv.1 ++ ":" ++ kv.2 ++ "," ++ jsonMembers rest

/-- A JSON object over an explicit key/value list — the shape Go's
reflective struct encoder emits, one `"key":value` member per exported
field in struct order. -/
def jsonObjectOfPairs (ps : List (String × String)) : String :=
  "\x7b" ++ jsonMembers ps ++ "\x7d"

/-- The key/value members `json.Marshal` emits for a `SupplierData` value:
the struct tags `inn`, `company_name`, `action`, `rating_change`, `details`
in struct order, with `r` the rendering of the `float64` field. -/
def supplierDataJsonPairs (d : SupplierData) (r : String) : List (String × String) :=
  [("inn", goQuote d.INN), ("company_name", goQuote d.CompanyName),
   ("action", goQuote d.Action), ("rating_change", r),
   ("details", goQuote d.Details)]

/-- `json.Marshal` on a `SupplierData` value: the object over the struct-tag
members; it fails (`none`) exactly when the `float64` field is non-finite. -/
def jsonMarshalSupplierData (d : SupplierData) : Option String :=
  (encodeGoFloat d.RatingChange).map fun r =>
    jsonObjectOfPairs (supplierDataJsonPairs d r)

/-- The text the marshalled payload contributes to the hashed record: the Go
code discards the `json.Marshal` error with `dataBytes, _ := ...`, so a failed
marshal leaves `dataBytes` nil and `string(dataBytes)` empty. -/
def marshalOrEmpty (d : SupplierData) : String :=
  (jsonMarshalSupplierData d).getD ""

/-- `Block` — the block entity, with the fields and order of the Go struct.
Go's `int` and `int64` are modelled as `Int`; no arithmetic is performed on
them in this core, so no overflow site exists. -/
structure Block where
  Index : Int
  Timestamp : Int
  Data : SupplierData
  PrevHash : String
  Hash : String
  Nonce : Int
deriving DecidableEq, Repr

/-- The record string of `CalculateHash`:
`fmt.Sprintf("%d%d%s%s%d", b.Index, b.Timestamp, string(dataBytes), b.PrevHash, b.Nonce)` —
decimal renderings and strings concatenated with no separators. -/
def Block.hashRecord (b : Block) : String :=
  toString b.Index ++ toString b.Timestamp ++ marshalOrEmpty b.Data
    ++ b.PrevHash ++ toString b.Nonce

/-- `CalculateHash`: SHA-256 over the UTF-8 bytes of the record string,
encoded as lowercase hex. -/
def Block.CalculateHash (b : Block) : String :=
  hexEncode (sha256 (strToBytes b.hashRecord))

/-- `NewBlock`: assemble the block with the captured timestamp and zero
nonce, then store its own `CalculateHash` as `Hash`.  The Go constructor
reads `time.Now().Unix()`; the clock is passed in as `now`. -/
def NewBlock (data : SupplierData) (prevHash : String) (index : Int)
    (now : Int) : Block :=
  let block : Block :=
    { Index := index, Timestamp := now, Data := data,
      PrevHash := prevHash, Hash := "", Nonce := 0 }
  { block with Hash := block.CalculateHash }

/-- The fixed genesis payload of `NewGenesisBlock`.  `RatingChange` is left at
Go's zero value `0.0`, whose JSON rendering is `0`; `Details` is the literal
from the source (its second half is Russian). -/
def genesisData : SupplierData :=
  { INN := "0000000000", CompanyName := "System Genesis", Action := "INIT",
    RatingChange := .finite "0", Details := "Genesis Block - начало цепочки" }

/-- `NewGenesisBlock`: the standard constructor on the fixed genesis payload,
predecessor fingerprint `"0"` and index `0`. -/
def NewGenesisBlock (now : Int) : Block :=
  NewBlock genesisData "0" 0 now

/-! ## Spec-side formulations, for comparison with the embedded code -/

/-- Whether a character is a lowercase hexadecimal digit `0`-`9`, `a`-`f`. -/
def isLowerHexDigit (c : Char) : Bool :=
  (48 ≤ c.toNat && c.toNat ≤ 57) || (97 ≤ c.toNat && c.toNat ≤ 102)

/-- Modelled from the spec (§4.3): concatenate, with no separators, the
decimal rendering of `index`, the decimal rendering of `timestamp`, the
serialized payload text, `prevFingerprint` as-is and the decimal rendering of
`nonce`; SHA-256 the UTF-8 bytes of that record and encode the digest as
lowercase hex. -/
def deriveFingerprintSpec (index timestamp : Int) (payloadText : String)
    (prevFingerprint : String) (nonce : Int) : String :=
  hexEncode (sha256 (strToBytes (toString index ++ toString timestamp
    ++ payloadText ++ prevFingerprint ++ toString nonce)))

/-- The key/value members `json.Marshal` emits for a `Block` value, per the
struct tags in the source: `index`, `timestamp`, `data`, `prev_hash`,
`hash`, `nonce` in struct order, with `ds` the marshalled payload nested
under `data`. -/
def blockJsonPairs (b : Block) (ds : String) : List (String × String) :=
  [("index", toString b.Index), ("timestamp", toString b.Timestamp),
   ("data", ds), ("prev_hash", goQuote b.PrevHash),
   ("hash", goQuote b.Hash), ("nonce", toString b.Nonce)]

/-- `json.Marshal` on a `Block` value: the object over the struct-tag
members; it fails exactly when the payload fails to marshal. -/
def jsonMarshalBlock (b : Block) : Option String :=
  (jsonMarshalSupplierData b.Data).map fun ds =>
    jsonObjectOfPairs (blockJsonPairs b ds)

/-! ## Helper lemmas -/

/-- Every byte of a word's big-endian decomposition is below 256. -/
theorem mem_wordToBytes_lt {w x : Nat} (h : x ∈ wordToBytes w) : x < 256 := by
  simp only [wordToBytes, List.mem_cons, List.not_mem_nil, or_false] at h
  rcases h with h | h | h | h <;> omega

/-- A SHA-256 digest is exactly 32 bytes. -/
theorem sha256_length (msg : List Nat) : (sha256 msg).length = 32 := by
  simp [sha256, wordToBytes]

/-- Every byte of a SHA-256 digest is below 256. -/
theorem sha256_mem_lt {msg : List Nat} {x : Nat} (h : x ∈ sha256 msg) : x < 256 := by
  simp only [sha256, List.mem_append] at h
  rcases h with ((((((h | h) | h) | h) | h) | h) | h) | h <;> exact mem_wordToBytes_lt h

/-- Hex encoding yields two characters per byte. -/
theorem hexChars_length (bs : List Nat) : (hexChars bs).length = 2 * bs.length := by
  induction bs with
  | nil => rfl
  | cons b bs ih =>
    simp only [hexChars, List.flatMap_cons] at ih ⊢
    simp [ih]
    omega

/-- `hexDigitChar` of a value below 16 is a lowercase hex digit. -/
theorem isLowerHexDigit_hexDigitChar :
    ∀ n, n < 16 → isLowerHexDigit (hexDigitChar n) = true := by decide

/-- Hex encoding of genuine bytes yields only lowercase hex digits. -/
theorem hexChars_all {bs : List Nat} (h : ∀ b ∈ bs, b < 256) :
    (hexChars bs).all isLowerHexDigit = true := by
  induction bs with
  | nil => rfl
  | cons b bs ih =>
    have hb := h b (List.mem_cons_self ..)
    have hrest := ih fun x hx => h x (List.mem_cons_of_mem _ hx)
    simp only [hexChars, List.flatMap_cons, List.all_append, List.all_cons, List.all_nil,
      Bool.and_true, Bool.and_eq_true] at hrest ⊢
    exact ⟨⟨isLowerHexDigit_hexDigitChar _ (by omega),
      isLowerHexDigit_hexDigitChar _ (by omega)⟩, hrest⟩

/-- The fingerprint string is 64 characters long, for every block. -/
theorem calculateHash_len (b : Block) : (Block.CalculateHash b).length = 64 := by
  simp [Block.CalculateHash, hexEncode, String.length, hexChars_length, sha256_length]

/-- Every character of the fingerprint string is a lowercase hex digit. -/
theorem calculateHash_hex (b : Block) :
    (Block.CalculateHash b).data.all isLowerHexDigit = true := by
  simp only [Block.CalculateHash, hexEncode]
  exact hexChars_all fun x hx => sha256_mem_lt hx

/-- FIPS 180-4 test vector: the model reproduces the published SHA-256 digest
of `"abc"`, so the embedded hash pipeline is the real function. -/
theorem sha256_abc_vector :
    hexEncode (sha256 (strToBytes "abc"))
      = "ba7816bf8f01cfea414140de5dae2223b00361a396177a9cb410ff61f20015ad" := by decide

/-! ## The claims -/

/-- C1: for every block whose payload serializes, `CalculateHash` is the
lowercase-hex SHA-256 of the UTF-8 bytes of the record obtained by
concatenating, with no separators, the decimal index, the decimal timestamp,
the serialized payload text, `PrevHash` as-is and the decimal nonce — the
derivation the spec describes in §4.3. -/
theorem calculateHash_eq_spec_derivation (b : Block) (s : String)
    (h : jsonMarshalSupplierData b.Data = some s) :
    b.CalculateHash = deriveFingerprintSpec b.Index b.Timestamp s b.PrevHash b.Nonce := by
  simp [Block.CalculateHash, Block.hashRecord, marshalOrEmpty, deriveFingerprintSpec, h]

/-- Witness for C1 at the genesis payload and a fixed timestamp. -/
theorem calculateHash_eq_spec_derivation_witness :
    Block.CalculateHash (NewBlock genesisData "0" 0 1700000000)
      = deriveFingerprintSpec 0 1700000000 (marshalOrEmpty genesisData) "0" 0 :=
  calculateHash_eq_spec_derivation _ _ rfl

/-- C2: `NewBlock` returns a self-consistent block — the stored `Hash` equals
`CalculateHash` of the block itself, and the other fields are the constructor
arguments, the captured timestamp and a zero nonce. -/
theorem newBlock_hash_invariant (d : SupplierData) (p : String) (i t : Int) :
    (NewBlock d p i t).Hash = (NewBlock d p i t).CalculateHash
      ∧ (NewBlock d p i t).Index = i ∧ (NewBlock d p i t).Timestamp = t
      ∧ (NewBlock d p i t).Data = d ∧ (NewBlock d p i t).PrevHash = p
      ∧ (NewBlock d p i t).Nonce = 0 :=
  ⟨rfl, rfl, rfl, rfl, rfl, rfl⟩

/-- C3 counterexample: the genesis payload in the code carries the Russian
details string `"Genesis Block - начало цепочки"`, so `NewGenesisBlock` (here
at timestamp 0) does not return the payload the claim states, whose details
read `"Genesis Block - start of chain"`. -/
theorem genesis_payload_cex :
    ¬ ((NewGenesisBlock 0).Index = 0 ∧ (NewGenesisBlock 0).PrevHash = "0"
       ∧ (NewGenesisBlock 0).Nonce = 0
       ∧ (NewGenesisBlock 0).Data =
          { INN := "0000000000", CompanyName := "System Genesis", Action := "INIT",
            RatingChange := GoFloat.finite "0",
            Details := "Genesis Block - start of chain" }) := by decide

/-- C3 amended: `NewGenesisBlock` always returns index 0, predecessor
fingerprint `"0"`, nonce 0 and exactly the fixed genesis payload — whose
details field is the source's literal `"Genesis Block - начало цепочки"` —
and its fingerprint equals `CalculateHash` applied to exactly those field
values and the captured timestamp. -/
theorem genesis_block_shape (t : Int) :
    (NewGenesisBlock t).Index = 0 ∧ (NewGenesisBlock t).PrevHash = "0"
      ∧ (NewGenesisBlock t).Nonce = 0 ∧ (NewGenesisBlock t).Data = genesisData
      ∧ (NewGenesisBlock t).Hash = Block.CalculateHash
          { Index := 0, Timestamp := t, Data := genesisData,
            PrevHash := "0", Hash := "", Nonce := 0 } :=
  ⟨rfl, rfl, rfl, rfl, rfl⟩

/-- C4: the fingerprint is always exactly 64 characters, each a lowercase
hexadecimal digit — both as `CalculateHash` returns it and as the
constructor stores it. -/
theorem calculateHash_hex_format :
    (∀ b : Block, (b.CalculateHash).length = 64
      ∧ (b.CalculateHash).data.all isLowerHexDigit = true)
    ∧ (∀ (d : SupplierData) (p : String) (i t : Int),
        ((NewBlock d p i t).Hash).length = 64
          ∧ ((NewBlock d p i t).Hash).data.all isLowerHexDigit = true) := by
  refine ⟨fun b => ⟨calculateHash_len b, calculateHash_hex b⟩, fun d p i t => ?_⟩
  exact ⟨calculateHash_len ⟨i, t, d, p, "", 0⟩, calculateHash_hex ⟨i, t, d, p, "", 0⟩⟩

/-- C5: `CalculateHash` is deterministic — any two blocks agreeing on index,
timestamp, payload, predecessor fingerprint and nonce hash to the identical
string, which is a 64-character lowercase hex string. -/
theorem calculateHash_deterministic (b b' : Block)
    (hi : b.Index = b'.Index) (ht : b.Timestamp = b'.Timestamp)
    (hd : b.Data = b'.Data) (hp : b.PrevHash = b'.PrevHash)
    (hn : b.Nonce = b'.Nonce) :
    b.CalculateHash = b'.CalculateHash ∧ (b.CalculateHash).length = 64
      ∧ (b.CalculateHash).data.all isLowerHexDigit = true := by
  refine ⟨?_, calculateHash_len b, calculateHash_hex b⟩
  simp [Block.CalculateHash, Block.hashRecord, hi, ht, hd, hp, hn]

/-- Witness for C5: two blocks with the same field tuple and different stored
hashes yield the identical fingerprint. -/
theorem calculateHash_deterministic_witness :
    Block.CalculateHash ⟨0, 5, genesisData, "0", "aaa", 0⟩
      = Block.CalculateHash ⟨0, 5, genesisData, "0", "bbb", 0⟩ :=
  (calculateHash_deterministic _ _ rfl rfl rfl rfl rfl).1

/-- C6 counterexample: two blocks identical except in the payload's
`RatingChange` — `NaN` versus `+Inf`, so the payloads differ in one field —
receive the same fingerprint, because `json.Marshal` fails on both and
`CalculateHash` discards the error; the copy's `CalculateHash` equals the
original's stored fingerprint, contradicting the claim as stated. -/
theorem avalanche_cex :
    SupplierData.mk "123456789" "Acme" "RATING_UPDATE" GoFloat.nan "contract 7"
      ≠ SupplierData.mk "123456789" "Acme" "RATING_UPDATE" (GoFloat.inf false) "contract 7"
    ∧ Block.CalculateHash
        { Index := 1, Timestamp := 1600000000,
          Data := SupplierData.mk "123456789" "Acme" "RATING_UPDATE" (GoFloat.inf false) "contract 7",
          PrevHash := "0", Hash := "", Nonce := 0 }
      = (NewBlock (SupplierData.mk "123456789" "Acme" "RATING_UPDATE" GoFloat.nan "contract 7")
          "0" 1 1600000000).Hash :=
  ⟨by decide, rfl⟩

/-- C6 amended: changing a single payload field changes the hashed record —
and hence the fingerprint whenever SHA-256 does not collide on the two
records — provided the change alters the payload's serialized text (it always
does for payloads that `json.Marshal` accepts, since the serializations embed
every field); concretely, changing `ratingDelta` from `0` to `0.0001` on a
genesis-shaped block changes the fingerprint.  Payloads differing only
between two non-serializable `ratingDelta` values are the exception refuting
the original claim. -/
theorem avalanche_on_serialized_payload :
    (∀ b b' : Block, b.Index = b'.Index → b.Timestamp = b'.Timestamp →
      b.PrevHash = b'.PrevHash → b.Nonce = b'.Nonce →
      marshalOrEmpty b.Data ≠ marshalOrEmpty b'.Data →
      b.hashRecord ≠ b'.hashRecord)
    ∧ Block.CalculateHash
        { Index := 0, Timestamp := 1700000000,
          Data := { genesisData with RatingChange := GoFloat.finite "0.0001" },
          PrevHash := "0", Hash := "", Nonce := 0 }
      ≠ (NewBlock genesisData "0" 0 1700000000).Hash := by
  constructor
  · intro b b' hi ht hp hn hm hrec
    apply hm
    have h1 : (b.hashRecord).data = (b'.hashRecord).data := congrArg String.data hrec
    simp only [Block.hashRecord, String.data_append, hi, ht, hp, hn,
      List.append_assoc] at h1
    have h2 := List.append_cancel_left (List.append_cancel_left h1)
    have h3 := List.append_cancel_right
      (List.append_assoc .. ▸ List.append_assoc .. ▸ h2)
    exact String.ext h3
  · decide

/-- Witness for C6: the 0 versus 0.0001 payload change alters the hashed
record of a genesis-shaped block. -/
theorem avalanche_on_serialized_payload_witness :
    Block.hashRecord
        { Index := 0, Timestamp := 1700000000, Data := genesisData,
          PrevHash := "0", Hash := "", Nonce := 0 }
      ≠ Block.hashRecord
        { Index := 0, Timestamp := 1700000000,
          Data := { genesisData with RatingChange := GoFloat.finite "0.0001" },
          PrevHash := "0", Hash := "", Nonce := 0 } :=
  avalanche_on_serialized_payload.1 _ _ rfl rfl rfl rfl (by decide)

/-- C7: the core is total, with no error surface — `CalculateHash` returns a
64-character string for every in-memory block (malformed predecessor
fingerprints, arbitrary indices, arbitrary action strings and even
non-serializable payloads included), and the constructors accept their
arguments silently and always store a 64-character fingerprint. -/
theorem core_total_no_errors :
    (∀ b : Block, (b.CalculateHash).length = 64)
    ∧ (∀ (d : SupplierData) (p : String) (i t : Int),
        (NewBlock d p i t).PrevHash = p ∧ (NewBlock d p i t).Index = i
          ∧ (NewBlock d p i t).Data = d
          ∧ ((NewBlock d p i t).Hash).length = 64)
    ∧ (∀ t : Int, ((NewGenesisBlock t).Hash).length = 64) := by
  refine ⟨fun b => calculateHash_len b, fun d p i t => ⟨rfl, rfl, rfl, ?_⟩,
    fun t => ?_⟩
  · exact calculateHash_len ⟨i, t, d, p, "", 0⟩
  · exact calculateHash_len ⟨0, t, genesisData, "0", "", 0⟩

/-- C8: a block marshals to the JSON object over exactly the members
`blockJsonPairs` lists, whose keys are exactly `index`, `timestamp`, `data`,
`prev_hash`, `hash`, `nonce` in that order, with the payload nested under
`data` as the object over exactly the members `supplierDataJsonPairs` lists,
whose keys are exactly `inn`, `company_name`, `action`, `rating_change`,
`details` — and no others. -/
theorem block_json_field_names (b : Block) (r : String)
    (h : encodeGoFloat b.Data.RatingChange = some r) :
    jsonMarshalBlock b = some (jsonObjectOfPairs
        (blockJsonPairs b (jsonObjectOfPairs (supplierDataJsonPairs b.Data r))))
    ∧ (blockJsonPairs b (jsonObjectOfPairs (supplierDataJsonPairs b.Data r))).map Prod.fst
        = ["index", "timestamp", "data", "prev_hash", "hash", "nonce"]
    ∧ (supplierDataJsonPairs b.Data r).map Prod.fst
        = ["inn", "company_name", "action", "rating_change", "details"] := by
  refine ⟨?_, rfl, rfl⟩
  simp [jsonMarshalBlock, jsonMarshalSupplierData, h]

/-- Witness for C8 at a freshly constructed genesis-shaped block. -/
theorem block_json_field_names_witness :
    jsonMarshalBlock (NewBlock genesisData "0" 0 1700000000) = some (jsonObjectOfPairs
        (blockJsonPairs (NewBlock genesisData "0" 0 1700000000)
          (jsonObjectOfPairs (supplierDataJsonPairs genesisData "0"))))
    ∧ (blockJsonPairs (NewBlock genesisData "0" 0 1700000000)
          (jsonObjectOfPairs (supplierDataJsonPairs genesisData "0"))).map Prod.fst
        = ["index", "timestamp", "data", "prev_hash", "hash", "nonce"]
    ∧ (supplierDataJsonPairs genesisData "0").map Prod.fst
        = ["inn", "company_name", "action", "rating_change", "details"] :=
  block_json_field_names (NewBlock genesisData "0" 0 1700000000) "0" rfl

/-- C9: `CalculateHash` does not read the block's own `Hash` field — blocks
agreeing on the five hashed fields but differing in `Hash` hash identically,
and recomputing `CalculateHash` on a freshly constructed block returns
exactly the stored fingerprint. -/
theorem calculateHash_ignores_hash_field :
    (∀ b b' : Block, b.Index = b'.Index → b.Timestamp = b'.Timestamp →
       b.Data = b'.Data → b.PrevHash = b'.PrevHash → b.Nonce = b'.Nonce →
       b.Hash ≠ b'.Hash → b.CalculateHash = b'.CalculateHash)
    ∧ (∀ (d : SupplierData) (p : String) (i t : Int),
        (NewBlock d p i t).CalculateHash = (NewBlock d p i t).Hash) := by
  constructor
  · intro b b' hi ht hd hp hn _
    simp [Block.CalculateHash, Block.hashRecord, hi, ht, hd, hp, hn]
  · intro d p i t
    rfl

/-- Witness for C9: two blocks differing only in the stored hash have equal
`CalculateHash`. -/
theorem calculateHash_ignores_hash_field_witness :
    Block.CalculateHash ⟨1, 2, genesisData, "prev", "h1", 3⟩
      = Block.CalculateHash ⟨1, 2, genesisData, "prev", "h2", 3⟩ :=
  calculateHash_ignores_hash_field.1 _ _ rfl rfl rfl rfl rfl (by decide)

/-- C10: `CalculateHash` discards the `json.Marshal` error — a non-finite
`RatingChange` makes the payload contribute the empty string to the hashed
record, the fingerprint is still a 64-character string, and two blocks whose
payloads differ only between two non-serializable `RatingChange` values
receive identical fingerprints. -/
theorem marshal_error_discarded (b : Block)
    (h : encodeGoFloat b.Data.RatingChange = none) :
    marshalOrEmpty b.Data = "" ∧ (b.CalculateHash).length = 64
    ∧ (∀ b' : Block, b'.Index = b.Index → b'.Timestamp = b.Timestamp →
        b'.PrevHash = b.PrevHash → b'.Nonce = b.Nonce →
        b'.Data.INN = b.Data.INN → b'.Data.CompanyName = b.Data.CompanyName →
        b'.Data.Action = b.Data.Action → b'.Data.Details = b.Data.Details →
        encodeGoFloat b'.Data.RatingChange = none →
        b'.CalculateHash = b.CalculateHash) := by
  have hm : marshalOrEmpty b.Data = "" := by
    simp [marshalOrEmpty, jsonMarshalSupplierData, h]
  refine ⟨hm, calculateHash_len b, ?_⟩
  intro b' h1 h2 h3 h4 _ _ _ _ h9
  have hm' : marshalOrEmpty b'.Data = "" := by
    simp [marshalOrEmpty, jsonMarshalSupplierData, h9]
  simp [Block.CalculateHash, Block.hashRecord, h1, h2, h3, h4, hm, hm']

/-- Witness for C10: a `NaN` payload contributes nothing to the record, and a
block differing from it only by an infinite `RatingChange` hashes
identically. -/
theorem marshal_error_discarded_witness :
    marshalOrEmpty (SupplierData.mk "7700000000" "Delta" "CONTRACT_FAIL" GoFloat.nan "gc 12") = ""
    ∧ Block.CalculateHash
        ⟨7, 8, SupplierData.mk "7700000000" "Delta" "CONTRACT_FAIL" (GoFloat.inf true) "gc 12",
         "prevh", "", 0⟩
      = Block.CalculateHash
        ⟨7, 8, SupplierData.mk "7700000000" "Delta" "CONTRACT_FAIL" GoFloat.nan "gc 12",
         "prevh", "", 0⟩ :=
  ⟨(marshal_error_discarded
      ⟨7, 8, SupplierData.mk "7700000000" "Delta" "CONTRACT_FAIL" GoFloat.nan "gc 12",
       "prevh", "", 0⟩ rfl).1,
   (marshal_error_discarded
      ⟨7, 8, SupplierData.mk "7700000000" "Delta" "CONTRACT_FAIL" GoFloat.nan "gc 12",
       "prevh", "", 0⟩ rfl).2.2
     ⟨7, 8, SupplierData.mk "7700000000" "Delta" "CONTRACT_FAIL" (GoFloat.inf true) "gc 12",
      "prevh", "", 0⟩ rfl rfl rfl rfl rfl rfl rfl rfl rfl⟩

end TrustLink

